import Mathlib

/-!
Verification development for the gsh_benchmarker repository.

The definitions below are a shallow embedding of the Python source:

* `parse_ab_output`      — src/gsh_benchmarker/common/utils.py, `parse_ab_output`
* `consolidate_results`  — src/gsh_benchmarker/common/reports.py,
                           `ReportGenerator.consolidate_results`
* `plan_concurrency_levels`, `run_comprehensive_test`, `run_single_test`,
  `test_connectivity`    — src/gsh_benchmarker/geoserver/core.py, `GeoServerTester`
* `parse_bbox`           — src/gsh_benchmarker/geoserver/capabilities.py,
                           `CapabilitiesParser._parse_bbox` / `_get_bbox_value`

Machine reals (Python floats) are modelled as `Rat`; Python exceptions as
`Except String`; fallible externals (HTTP, the ab subprocess) as oracle
functions supplied in an `Env` record.  File-system effects are modelled as an
association-list store from file names to record values; console output,
progress bars and per-test metadata side files are not modelled (no claim
mentions them).
-/

deriving instance DecidableEq for Except

namespace GshBench

/-- `p` is a prefix of `s` (over characters). -/
def charsPre : List Char → List Char → Bool
  | [], _ => true
  | _ :: _, [] => false
  | a :: p, b :: s => a == b && charsPre p s

/-- `p` occurs contiguously inside `s` (over characters). -/
def charsInfix (p : List Char) : List Char → Bool
  | [] => p.isEmpty
  | c :: t => charsPre p (c :: t) || charsInfix p t

/-- Python `substring in line` (`str.__contains__`). -/
def containsSubstr (s pat : String) : Bool :=
  charsInfix pat.data s.data

/-- Split a character list at every position satisfying `p` (separators are
dropped; empty pieces between adjacent separators are kept, as in
`str.split(sep)`). -/
def splitCharsBy (p : Char → Bool) : List Char → List (List Char)
  | [] => [[]]
  | c :: t =>
    match splitCharsBy p t with
    | [] => if p c then [[], []] else [[c]]
    | h :: rest => if p c then [] :: h :: rest else (c :: h) :: rest

/-- `s.split(sep)` for a one-character separator (same pieces as Python's
`str.split(sep)` / Lean's `String.splitOn` on that separator). -/
def splitOnChar (sep : Char) (s : String) : List String :=
  (splitCharsBy (fun c => c = sep) s.data).map String.mk

/-- Strip leading and trailing whitespace (`str.strip()`). -/
def strTrim (s : String) : String :=
  String.mk (((s.data.dropWhile Char.isWhitespace).reverse.dropWhile Char.isWhitespace).reverse)

/-- Python `str.split()` with no arguments: split on runs of whitespace,
discarding empty pieces. -/
def wsTokens (s : String) : List String :=
  ((splitCharsBy Char.isWhitespace s.data).filter (fun t => ¬ t.isEmpty)).map String.mk

/-- Interpret a list of characters as a base-10 natural number; `none` if the
list is empty or contains a non-digit. -/
def digitsToNat? (cs : List Char) : Option Nat :=
  if cs.isEmpty then none
  else cs.foldlM (fun acc c => if c.isDigit then some (acc * 10 + (c.toNat - 48)) else none) 0

/-- Python `int(s)`: optional sign followed by digits; `none` models the
`ValueError` raised on anything else. -/
def parseInt? (s : String) : Option Int :=
  match s.data with
  | '-' :: rest => (digitsToNat? rest).map (fun n => -(n : Int))
  | '+' :: rest => (digitsToNat? rest).map (fun n => (n : Int))
  | cs => (digitsToNat? cs).map (fun n => (n : Int))

/-- Value of an integer part and a fractional digit list, e.g. `3` and `['0','5']`
denote `3.05`. -/
def decimalVal (ip : Nat) (frac : List Char) : Option Rat :=
  if frac.isEmpty then some (ip : Rat)
  else (digitsToNat? frac).map (fun f => (ip : Rat) + (f : Rat) / ((10 : Rat) ^ frac.length))

/-- Python `float(s)` restricted to plain decimal notation
(optional sign, digits, at most one dot, at least one digit); `none` models
the `ValueError` raised on anything else.  The ab report and the
capabilities documents only ever carry plain decimals. -/
def parseFloat? (s : String) : Option Rat :=
  let core : List Char → Option Rat := fun cs =>
    match cs.span (fun c => c ≠ '.') with
    | (ip, []) => (digitsToNat? ip).map (fun n => (n : Rat))
    | (ip, _dot :: frac) =>
      if frac.contains '.' then none
      else if ip.isEmpty && frac.isEmpty then none
      else if ip.isEmpty then decimalVal 0 frac
      else (digitsToNat? ip).bind (fun n => decimalVal n frac)
  match s.data with
  | '-' :: rest => (core rest).map (fun q => -q)
  | '+' :: rest => core rest
  | cs => core cs

/-- The `k`-th whitespace token of a line (`line.split()[k]`); `none` models
the `IndexError` on short lines. -/
def tokenAt (line : String) (k : Nat) : Option String :=
  (wsTokens line)[k]?

/-- `float(line.split()[k])`. -/
def tokenFloat (line : String) (k : Nat) : Option Rat :=
  (tokenAt line k).bind parseFloat?

/-- `int(line.split()[k])`. -/
def tokenInt (line : String) (k : Nat) : Option Int :=
  (tokenAt line k).bind parseInt?

/-! ## Apache Bench report parsing (common/utils.py, `parse_ab_output`) -/

/-- The metrics dictionary built by `parse_ab_output`; a key absent from the
Python dict is `none` here. -/
structure AbMetrics where
  requests_per_second : Option Rat := none
  mean_response_time : Option Rat := none
  failed_requests : Option Int := none
  total_time : Option Rat := none
  transfer_rate : Option Rat := none
deriving Repr, DecidableEq

/-- Marker tested by the first branch of the `elif` chain. -/
def isRpsLine (line : String) : Bool := containsSubstr line "Requests per second:"

/-- Marker tested by the second branch (`"Time per request:" in line and "(mean)" in line`). -/
def isMeanLine (line : String) : Bool :=
  containsSubstr line "Time per request:" && containsSubstr line "(mean)"

/-- Marker tested by the third branch. -/
def isFailedLine (line : String) : Bool := containsSubstr line "Failed requests:"

/-- Marker tested by the fourth branch. -/
def isTotalTimeLine (line : String) : Bool := containsSubstr line "Time taken for tests:"

/-- Marker tested by the fifth branch. -/
def isTransferLine (line : String) : Bool := containsSubstr line "Transfer rate:"

/-- The per-line `elif` chain of `parse_ab_output`, folded over the (already
stripped) lines of the report.  A matched line whose token is missing or not
numeric makes Python raise `IndexError`/`ValueError` out of the function;
that is the `.error` case. -/
def parse_ab_lines : List String → AbMetrics → Except String AbMetrics
  | [], acc => .ok acc
  | line :: rest, acc =>
    if isRpsLine line then
      match tokenFloat line 3 with
      | none => .error "ValueError"
      | some v => parse_ab_lines rest { acc with requests_per_second := some v }
    else if isMeanLine line then
      match tokenFloat line 3 with
      | none => .error "ValueError"
      | some v => parse_ab_lines rest { acc with mean_response_time := some v }
    else if isFailedLine line then
      match tokenInt line 2 with
      | none => .error "ValueError"
      | some v => parse_ab_lines rest { acc with failed_requests := some v }
    else if isTotalTimeLine line then
      match tokenFloat line 4 with
      | none => .error "ValueError"
      | some v => parse_ab_lines rest { acc with total_time := some v }
    else if isTransferLine line then
      match tokenFloat line 2 with
      | none => .error "ValueError"
      | some v => parse_ab_lines rest { acc with transfer_rate := some v }
    else parse_ab_lines rest acc

/-- The stripped lines of the report: `output.split("\n")` followed by the
per-iteration `line.strip()`. -/
def strippedLines (output : String) : List String :=
  (splitOnChar '\n' output).map strTrim

/-- `parse_ab_output` from common/utils.py: fold the `elif` chain over every
stripped line of the report, starting from the empty dict. -/
def parse_ab_output (output : String) : Except String AbMetrics :=
  parse_ab_lines (strippedLines output) {}

/-- Modelled from the spec's words for comparison with `parse_ab_output`:
one metric is read independently of the others, from the line matching its
marker (the last one when several match), by extracting one whitespace token. -/
def specMetric {α : Type} (p : String → Bool) (ext : String → Option α)
    (lines : List String) : Option α :=
  ((lines.filter p).getLast?).bind ext

/-- How many of the five markers a line matches (used to state that marker
matches are mutually exclusive on a given report). -/
def markerCount (line : String) : Nat :=
  (if isRpsLine line then 1 else 0) + (if isMeanLine line then 1 else 0) +
  (if isFailedLine line then 1 else 0) + (if isTotalTimeLine line then 1 else 0) +
  (if isTransferLine line then 1 else 0)

/-- Every marker matched by `line` extracts its token successfully. -/
def lineWellFormed (line : String) : Prop :=
  (isRpsLine line → (tokenFloat line 3).isSome) ∧
  (isMeanLine line → (tokenFloat line 3).isSome) ∧
  (isFailedLine line → (tokenInt line 2).isSome) ∧
  (isTotalTimeLine line → (tokenFloat line 4).isSome) ∧
  (isTransferLine line → (tokenFloat line 2).isSome)

instance (line : String) : Decidable (lineWellFormed line) := by
  unfold lineWellFormed; infer_instance

/-! ## Result consolidation (common/reports.py, `ReportGenerator.consolidate_results`)

The result directory is modelled as an association list from file names to
consolidated records; writing a file conses the new `(name, record)` pair and
reading takes the first match, so a rewrite of the same name shadows the old
content exactly as an overwrite does. -/

/-- Nearest-integer rounding with ties to even, as used by Python `format`. -/
def roundHalfEven (x : Rat) : Int :=
  let f := x.floor
  let d := x - (f : Rat)
  if d < 1 / 2 then f
  else if 1 / 2 < d then f + 1
  else if f % 2 = 0 then f else f + 1

/-- Decimal digits of `n` left-padded with zeros to width `w`. -/
def natToPadded (w n : Nat) : String :=
  let s := toString n
  String.mk (List.replicate (w - s.length) '0') ++ s

/-- Python `f"{x:.<prec>f}"` on the exact rational value. -/
def formatFix (prec : Nat) (x : Rat) : String :=
  let scaled := roundHalfEven (x * ((10 : Rat) ^ prec))
  let m := scaled.natAbs
  (if scaled < 0 then "-" else "") ++ toString (m / 10 ^ prec) ++ "." ++
    natToPadded prec (m % 10 ^ prec)

/-- Python `str.title()` restricted to ASCII case mapping. -/
def pyTitleAux : Bool → List Char → List Char
  | _, [] => []
  | prevAlpha, c :: t =>
    if c.isAlpha then (if prevAlpha then c.toLower else c.toUpper) :: pyTitleAux true t
    else c :: pyTitleAux false t

/-- Python `str.title()`. -/
def pyTitle (s : String) : String := String.mk (pyTitleAux false s.data)

/-- `BenchmarkResult` from common/utils.py (floats as exact rationals). -/
structure BenchmarkResult where
  target : String
  service_type : String
  concurrency : Nat
  total_requests : Nat
  requests_per_second : Rat
  mean_response_time : Rat
  failed_requests : Int
  total_time : Rat
  transfer_rate : Rat
  success_rate : Rat
  test_id : String
  timestamp : String
  metadata : Option (List (String × String)) := none
deriving Repr, DecidableEq

/-- The `test_config` dict as built by the call sites
(core.py line 474, tests/test_session_isolation.py). -/
structure TestConfig where
  total_requests : Nat
  concurrency_levels : List Nat
  layers_tested : List String
  server : String
  session_type : Option String := none
deriving Repr, DecidableEq

/-- The formatted `"results"` sub-dict of one consolidated result entry. -/
structure ResultEntryMetrics where
  requests_per_second : String
  mean_response_time_ms : String
  failed_requests : String
  total_time_seconds : String
  transfer_rate_kbps : String
  success_rate : String
deriving Repr, DecidableEq

/-- One entry of the consolidated `"results"` array. -/
structure ResultEntry where
  target : String
  service_type : String
  timestamp : String
  test_id : String
  total_requests : Nat
  concurrency_level : Nat
  test_date : String
  results : ResultEntryMetrics
  metadata : List (String × String)
deriving Repr, DecidableEq

/-- The consolidated `"test_suite"` header. -/
structure TestSuiteInfo where
  name : String
  service_type : String
  timestamp : String
  date : String
  total_requests_per_test : Nat
  concurrency_levels : List Nat
  targets_tested : List String
  total_tests : Nat
deriving Repr, DecidableEq

/-- The whole consolidated JSON document. -/
structure ConsolidatedRecord where
  test_suite : TestSuiteInfo
  configuration : TestConfig
  results : List ResultEntry
deriving Repr, DecidableEq

/-- The result directory: newest write first, `readStore` takes the first match. -/
abbrev Store := List (String × ConsolidatedRecord)

/-- Write (or overwrite) a file. -/
def writeStore (s : Store) (name : String) (rec : ConsolidatedRecord) : Store :=
  (name, rec) :: s

/-- Re-read a file by name. -/
def readStore (s : Store) (name : String) : Option ConsolidatedRecord :=
  s.lookup name

/-- `f"consolidated_{self.service_type}_results_{timestamp}.json"`. -/
def consolidatedFileName (service_type timestamp : String) : String :=
  "consolidated_" ++ service_type ++ "_results_" ++ timestamp ++ ".json"

/-- One formatted entry of the consolidated `"results"` array
(`result_data` in the source; `now` stands for `datetime.now().isoformat()`). -/
def resultEntryOf (now : String) (r : BenchmarkResult) : ResultEntry :=
  { target := r.target
    service_type := r.service_type
    timestamp := r.timestamp
    test_id := r.test_id
    total_requests := r.total_requests
    concurrency_level := r.concurrency
    test_date := now
    results :=
      { requests_per_second := formatFix 2 r.requests_per_second
        mean_response_time_ms := formatFix 2 r.mean_response_time
        failed_requests := toString r.failed_requests
        total_time_seconds := formatFix 2 r.total_time
        transfer_rate_kbps := formatFix 2 r.transfer_rate
        success_rate := formatFix 1 r.success_rate ++ "%" }
    metadata := r.metadata.getD [] }

/-- `ReportGenerator.consolidate_results`: build the consolidated record and
write it to the deterministically named file in the result directory.
Returns the updated store, the file name and the record (the Python method
returns the path). -/
def consolidate_results (store : Store) (service_type : String)
    (results : List BenchmarkResult) (timestamp : String)
    (test_config : TestConfig) (now : String) : Store × String × ConsolidatedRecord :=
  let record : ConsolidatedRecord :=
    { test_suite :=
        { name := pyTitle service_type ++ " Comprehensive Benchmark"
          service_type := service_type
          timestamp := timestamp
          date := now
          total_requests_per_test := test_config.total_requests
          concurrency_levels := test_config.concurrency_levels
          targets_tested := (results.map (fun r => r.target)).dedup
          total_tests := results.length }
      configuration := test_config
      results := results.map (resultEntryOf now) }
  let name := consolidatedFileName service_type timestamp
  (writeStore store name record, name, record)

/-! ## GeoServer tester (geoserver/core.py, `GeoServerTester`) -/

/-- common/config.py `CONCURRENCY_LEVELS`. -/
def CONCURRENCY_LEVELS : List Nat := [1, 10, 100, 500, 1000, 2000, 3000, 4000, 5000]

/-- common/config.py `DEFAULT_TOTAL_REQUESTS`. -/
def DEFAULT_TOTAL_REQUESTS : Nat := 5000

/-- geoserver/config.py tile constants. -/
def TILE_MATRIX_SET : String := "WebMercatorQuad"

/-- geoserver/config.py `TILE_FORMAT`. -/
def TILE_FORMAT : String := "image/png"

/-- geoserver/config.py `DEFAULT_ZOOM_LEVEL`. -/
def DEFAULT_ZOOM_LEVEL : Nat := 8

/-- geoserver/config.py `DEFAULT_TILE_ROW`. -/
def DEFAULT_TILE_ROW : Nat := 84

/-- geoserver/config.py `DEFAULT_TILE_COL`. -/
def DEFAULT_TILE_COL : Nat := 133

/-- A parsed bounding box (`{'minx': ..., 'miny': ..., 'maxx': ..., 'maxy': ...}`). -/
structure Bbox where
  minx : Rat
  miny : Rat
  maxx : Rat
  maxy : Rat
deriving Repr, DecidableEq

/-- `LayerInfo` from geoserver/capabilities.py. -/
structure LayerInfo where
  name : String
  title : String
  abstract : String := ""
  keywords : List String := []
  bbox : Option Bbox := none
  srs_list : List String := []
deriving Repr, DecidableEq

/-- The tester state relevant to the sweep: the configured server URL and the
layer dictionary populated by discovery (`self.layers`, keyed by layer name). -/
structure GeoServerTester where
  server_url : Option String := none
  layers : List (String × LayerInfo) := []

/-- The external world: HTTP GET status of a URL (`none` = request exception)
and one Apache Bench invocation for a (url, total_requests, concurrency)
triple (`none` = non-zero exit / timeout / failure, `some` = parsed metrics). -/
structure Env where
  http_get_status : String → Option Nat
  ab_run : String → Nat → Nat → Option AbMetrics

/-- Python `str.rstrip("/")`. -/
def rstripSlash (s : String) : String :=
  String.mk (s.data.reverse.dropWhile (fun c => c = '/')).reverse

/-- `self.wmts_base` as produced by `_setup_urls` (empty when no server URL is
configured). -/
def wmtsBase (t : GeoServerTester) : String :=
  match t.server_url with
  | none => ""
  | some u => rstripSlash u ++ "/gwc/service/wmts"

/-- The WMTS tile URL string assembled by `generate_tile_url`. -/
def tileUrlStr (t : GeoServerTester) (layer_name : String)
    (zoom : Nat := DEFAULT_ZOOM_LEVEL) (row : Nat := DEFAULT_TILE_ROW)
    (col : Nat := DEFAULT_TILE_COL) : String :=
  wmtsBase t ++ "?SERVICE=WMTS&REQUEST=GetTile&VERSION=1.0.0&LAYER=" ++ layer_name ++
    "&STYLE=&TILEMATRIXSET=" ++ TILE_MATRIX_SET ++ "&TILEMATRIX=" ++ toString zoom ++
    "&TILEROW=" ++ toString row ++ "&TILECOL=" ++ toString col ++ "&FORMAT=" ++ TILE_FORMAT

/-- `generate_tile_url`: raises `ValueError` when the server URL is not
configured. -/
def generate_tile_url (t : GeoServerTester) (layer_name : String)
    (zoom : Nat := DEFAULT_ZOOM_LEVEL) (row : Nat := DEFAULT_TILE_ROW)
    (col : Nat := DEFAULT_TILE_COL) : Except String String :=
  if wmtsBase t = "" then .error "ValueError"
  else .ok (tileUrlStr t layer_name zoom row col)

/-- `test_connectivity`: issue one tile GET; any `RequestException` or
`ValueError` yields `(False, 0)`; otherwise `(status == 200, status)`. -/
def test_connectivity (t : GeoServerTester) (env : Env) (layer_name : String) :
    Bool × Nat :=
  match generate_tile_url t layer_name with
  | .error _ => (false, 0)
  | .ok url =>
    match env.http_get_status url with
    | none => (false, 0)
    | some code => (code == 200, code)

/-- `run_single_test` (core.py lines 295-349): build the tile URL (may raise
`ValueError`), look the layer up in `self.layers` (may raise `KeyError`), run
Apache Bench through the environment, and on success derive the success rate
and assemble the `BenchmarkResult`.  `timestamp = none` models the Python
default of stamping with the current time (`now`).  The metadata side file
written by `_save_test_metadata` is not modelled. -/
def run_single_test (t : GeoServerTester) (env : Env) (layer_key : String)
    (concurrency : Nat) (total_requests : Nat := DEFAULT_TOTAL_REQUESTS)
    (timestamp : Option String := none) (now : String := "") :
    Except String (Option BenchmarkResult) := do
  let ts := timestamp.getD now
  let test_id := layer_key ++ "_c" ++ toString concurrency ++ "_" ++ ts
  let tile_url ← generate_tile_url t layer_key
  let _layer_info ←
    match t.layers.lookup layer_key with
    | none => Except.error "KeyError"
    | some info => Except.ok info
  match env.ab_run tile_url total_requests concurrency with
  | none => Except.ok none
  | some ab =>
    let failed := ab.failed_requests.getD 0
    if total_requests = 0 then Except.error "ZeroDivisionError"
    else
      let success_rate := (((total_requests : Rat) - (failed : Rat)) / (total_requests : Rat)) * 100
      Except.ok (some
        { target := layer_key
          service_type := "geoserver"
          concurrency := concurrency
          total_requests := total_requests
          requests_per_second := ab.requests_per_second.getD 0
          mean_response_time := ab.mean_response_time.getD 0
          failed_requests := failed
          total_time := ab.total_time.getD 0
          transfer_rate := ab.transfer_rate.getD 0
          success_rate := success_rate
          test_id := test_id
          timestamp := ts })

/-- The value `run_single_test` produces on its non-raising path (used to
state closed forms of the sweep). -/
def single_result (t : GeoServerTester) (env : Env) (layer_key : String)
    (concurrency total_requests : Nat) (ts : String) : Option BenchmarkResult :=
  match run_single_test t env layer_key concurrency total_requests (some ts) "" with
  | .ok r => r
  | .error _ => none

/-- The concurrency-level normalization at the top of `run_comprehensive_test`
(core.py lines 395-407): keep the levels that do not exceed the request count;
if none survives, fall back to the single level `min(100, total_requests)`. -/
def plan_concurrency_levels (requested : List Nat) (total_requests : Nat) : List Nat :=
  let kept := requested.filter (fun c => c ≤ total_requests)
  if kept.isEmpty then [min 100 total_requests] else kept

/-- Inner loop of the sweep: run every concurrency level for one layer,
appending each successful result to the accumulator. -/
def sweepLevels (t : GeoServerTester) (env : Env) (layer_key : String)
    (total_requests : Nat) (ts now : String) :
    List Nat → List BenchmarkResult → Except String (List BenchmarkResult)
  | [], acc => .ok acc
  | c :: cs, acc => do
    let r ← run_single_test t env layer_key c total_requests (some ts) now
    sweepLevels t env layer_key total_requests ts now cs
      (match r with | some x => acc ++ [x] | none => acc)

/-- Outer loop of the sweep: for each discovered layer, probe connectivity
first and skip every concurrency level of an inaccessible layer; otherwise run
the inner loop. -/
def sweepLayers (t : GeoServerTester) (env : Env) (total_requests : Nat)
    (levels : List Nat) (ts now : String) :
    List (String × LayerInfo) → List BenchmarkResult → Except String (List BenchmarkResult)
  | [], acc => .ok acc
  | kv :: rest, acc =>
    if (test_connectivity t env kv.1).1 then do
      let acc' ← sweepLevels t env kv.1 total_requests ts now levels acc
      sweepLayers t env total_requests levels ts now rest acc'
    else sweepLayers t env total_requests levels ts now rest acc

/-- `run_comprehensive_test` (core.py lines 385-482): normalize the requested
concurrency levels, clear the result directory, run the sweep over all
discovered layers, and consolidate the accumulated results — only when at
least one result was accumulated (`if all_results:`).  `ts` is the single
session timestamp generated at the top of the sweep and `now` stands for
`datetime.now().isoformat()` during consolidation. -/
def run_comprehensive_test (t : GeoServerTester) (env : Env)
    (total_requests : Nat := DEFAULT_TOTAL_REQUESTS)
    (concurrency_levels : Option (List Nat) := none) (ts : String := "")
    (now : String := "") : Except String (List BenchmarkResult × Store) := do
  let levels := plan_concurrency_levels (concurrency_levels.getD CONCURRENCY_LEVELS) total_requests
  let all_results ← sweepLayers t env total_requests levels ts now t.layers []
  let store :=
    if all_results.isEmpty then ([] : Store)
    else
      (consolidate_results [] "geoserver" all_results ts
        { total_requests := total_requests
          concurrency_levels := levels
          layers_tested := t.layers.map (fun kv => kv.1)
          server := t.server_url.getD "unknown" } now).1
  pure (all_results, store)

/-! ## Capabilities bounding-box parsing (geoserver/capabilities.py)

XML documents are modelled as rose trees of elements carrying a tag (in
ElementTree's Clark notation, i.e. `\x7buri\x7dlocal` for namespaced tags),
attributes, text and children.  The subset of ElementPath used by
`_parse_bbox` / `_get_bbox_value` is interpreted directly: an optional
leading `.//` (first matching descendant in document order, versus first
matching direct child without it), a tag with an optional namespace prefix,
and an optional `[@ATTR="VALUE"]` attribute predicate.  Exactly as in
CPython's `xpath_tokenizer`, resolving a prefixed tag *without* a namespaces
mapping raises `SyntaxError`. -/

mutual
/-- An XML element (child lists are a separate inductive so that recursion
over the tree is structural). -/
inductive XElem where
  | mk (tag : String) (attrs : List (String × String)) (text : Option String)
      (children : XForest)

/-- A list of sibling XML elements. -/
inductive XForest where
  | nil
  | cons (head : XElem) (tail : XForest)
end

/-- Build a forest from a list of elements. -/
def XForest.ofList : List XElem → XForest
  | [] => .nil
  | e :: es => .cons e (XForest.ofList es)

/-- The elements of a forest as a list. -/
def XForest.toList : XForest → List XElem
  | .nil => []
  | .cons e es => e :: XForest.toList es

/-- The element's tag. -/
def XElem.tag : XElem → String
  | .mk t _ _ _ => t

/-- The element's attributes. -/
def XElem.attrs : XElem → List (String × String)
  | .mk _ a _ _ => a

/-- The element's text. -/
def XElem.text : XElem → Option String
  | .mk _ _ tx _ => tx

/-- The element's direct children. -/
def XElem.children : XElem → List XElem
  | .mk _ _ _ ch => ch.toList

mutual
/-- All proper descendants of an element in document (preorder) order. -/
def XElem.descendants : XElem → List XElem
  | .mk _ _ _ ch => XForest.descList ch

/-- The elements of a forest together with their descendants, in document order. -/
def XForest.descList : XForest → List XElem
  | .nil => []
  | .cons e es => e :: e.descendants ++ XForest.descList es
end

/-- `CapabilitiesParser.NAMESPACES`. -/
def NAMESPACES : List (String × String) :=
  [("wms", "http://www.opengis.net/wms"),
   ("ogc", "http://www.opengis.net/ogc"),
   ("xlink", "http://www.w3.org/1999/xlink")]

/-- Resolve an optionally prefixed tag against an optional namespaces mapping,
as CPython's `xpath_tokenizer` does: `pfx:local` becomes `\x7buri\x7dlocal`,
and a prefix without a mapping (or with no mapping supplied at all) raises
`SyntaxError: prefix not found in prefix map`. -/
def resolveTag (ns : Option (List (String × String))) (tag : String) :
    Except String String :=
  match tag.data.span (fun c => c ≠ ':') with
  | (_, []) => .ok tag
  | (pre, _colon :: localPart) =>
    match ns with
    | none => .error "SyntaxError"
    | some m =>
      match m.lookup (String.mk pre) with
      | none => .error "SyntaxError"
      | some uri => .ok ("\x7b" ++ uri ++ "\x7d" ++ String.mk localPart)

/-- Decompose one of the path strings used by `_parse_bbox` /
`_get_bbox_value`: optional `.//`, a tag, and an optional `[@ATTR="VALUE"]`
attribute predicate. -/
def parsePath (path : String) : Option (Bool × String × Option (String × String)) :=
  let cs := path.data
  let (isDesc, rest) :=
    if charsPre (".//".data) cs then (true, cs.drop 3) else (false, cs)
  match splitCharsBy (fun c => c = '[') rest with
  | [tg] => some (isDesc, String.mk tg, none)
  | [tg, pred] =>
    if pred.getLast? = some ']' then
      let pred := pred.dropLast
      match splitCharsBy (fun c => c = '=') pred with
      | [a, v] =>
        if a.head? = some '@' ∧ v.head? = some '"' ∧ v.getLast? = some '"' then
          some (isDesc, String.mk tg, some (String.mk a.tail, String.mk v.tail.dropLast))
        else none
      | _ => none
    else none
  | _ => none

/-- Does the element satisfy the (optional) attribute predicate? -/
def attrPredHolds (pred : Option (String × String)) (x : XElem) : Bool :=
  match pred with
  | none => true
  | some (a, v) => x.attrs.lookup a == some v

/-- `elem.find(path, ns)` for the path subset above: the first matching
descendant (with `.//`) or direct child (without) in document order, or a
`SyntaxError` from prefix resolution. -/
def findPath (e : XElem) (path : String) (ns : Option (List (String × String))) :
    Except String (Option XElem) :=
  match parsePath path with
  | none => .error "SyntaxError"
  | some (isDesc, rawTag, pred) => do
    let tag ← resolveTag ns rawTag
    let pool := if isDesc then e.descendants else e.children
    .ok (pool.find? (fun x => x.tag == tag && attrPredHolds pred x))

/-- The dual lookup `elem.find(p, NAMESPACES)`-then-`elem.find(p)` used
throughout the capabilities code (the second call runs only when the first
found nothing, and raises `SyntaxError` when `p` carries a prefix). -/
def findDual (e : XElem) (path : String) : Except String (Option XElem) := do
  match ← findPath e path (some NAMESPACES) with
  | some x => pure (some x)
  | none => findPath e path none

/-- `_get_bbox_value`: walk the candidate tag names; return the first found
child's text parsed as a float, skipping a child whose text is missing, empty
or non-numeric (`ValueError` is caught and the loop continues); `none` when no
candidate yields a value. -/
def get_bbox_value (bbox_elem : XElem) : List String → Except String (Option Rat)
  | [] => .ok none
  | tn :: rest => do
    match ← findDual bbox_elem tn with
    | none => get_bbox_value bbox_elem rest
    | some x =>
      match x.text with
      | none => get_bbox_value bbox_elem rest
      | some txt =>
        if txt ≠ "" then
          match parseFloat? (strTrim txt) with
          | some v => .ok (some v)
          | none => get_bbox_value bbox_elem rest
        else get_bbox_value bbox_elem rest

/-- `bbox_xpaths` from `_parse_bbox`. -/
def bbox_xpaths : List String :=
  [".//wms:EX_GeographicBoundingBox",
   ".//EX_GeographicBoundingBox",
   ".//wms:LatLonBoundingBox",
   ".//LatLonBoundingBox",
   ".//wms:BoundingBox[@SRS=\"EPSG:4326\"]",
   ".//BoundingBox[@SRS=\"EPSG:4326\"]"]

/-- The loop body of `_parse_bbox` over the remaining xpaths.  A `ValueError`
or `TypeError` inside the extraction is caught and the loop continues; a
`SyntaxError` from either `find` call or from `_get_bbox_value` propagates. -/
def parse_bbox_loop (layer_elem : XElem) : List String → Except String (Option Bbox)
  | [] => .ok none
  | xp :: rest => do
    match ← findDual layer_elem xp with
    | none => parse_bbox_loop layer_elem rest
    | some be =>
      if containsSubstr xp "EX_GeographicBoundingBox" then do
        let west ← get_bbox_value be ["wms:westBoundLongitude", "westBoundLongitude"]
        let east ← get_bbox_value be ["wms:eastBoundLongitude", "eastBoundLongitude"]
        let south ← get_bbox_value be ["wms:southBoundLatitude", "southBoundLatitude"]
        let north ← get_bbox_value be ["wms:northBoundLatitude", "northBoundLatitude"]
        match west, east, south, north with
        | some w, some e, some s, some n =>
          .ok (some { minx := w, miny := s, maxx := e, maxy := n })
        | _, _, _, _ => parse_bbox_loop layer_elem rest
      else
        let wtxt := strTrim ((be.attrs.lookup "minx").getD ((be.attrs.lookup "miny").getD "0"))
        let etxt := strTrim ((be.attrs.lookup "maxx").getD ((be.attrs.lookup "maxy").getD "0"))
        let stxt := strTrim ((be.attrs.lookup "miny").getD ((be.attrs.lookup "minx").getD "0"))
        let ntxt := strTrim ((be.attrs.lookup "maxy").getD ((be.attrs.lookup "maxx").getD "0"))
        match parseFloat? wtxt, parseFloat? etxt, parseFloat? stxt, parseFloat? ntxt with
        | some w, some e, some s, some n =>
          .ok (some { minx := w, miny := s, maxx := e, maxy := n })
        | _, _, _, _ => parse_bbox_loop layer_elem rest

/-- `CapabilitiesParser._parse_bbox`. -/
def parse_bbox (layer_elem : XElem) : Except String (Option Bbox) :=
  parse_bbox_loop layer_elem bbox_xpaths

/-- The WMS namespace in Clark notation, as ElementTree stores namespaced tags. -/
def wmsClark : String := "\x7bhttp://www.opengis.net/wms\x7d"

/-- A leaf element with only text. -/
def txtEl (tag txt : String) : XElem := .mk tag [] (some txt) .nil

/-- A WMS 1.3.0 layer whose geographic bbox (west 3.05, east 7.35,
south 50.73, north 53.72) uses namespaced tags throughout. -/
def nsLayerFixture : XElem :=
  .mk (wmsClark ++ "Layer") [] none (XForest.ofList
    [txtEl (wmsClark ++ "Name") "demo",
     .mk (wmsClark ++ "EX_GeographicBoundingBox") [] none (XForest.ofList
       [txtEl (wmsClark ++ "westBoundLongitude") "3.05",
        txtEl (wmsClark ++ "eastBoundLongitude") "7.35",
        txtEl (wmsClark ++ "southBoundLatitude") "50.73",
        txtEl (wmsClark ++ "northBoundLatitude") "53.72"])])

/-- The same layer with unnamespaced tags throughout. -/
def plainLayerFixture : XElem :=
  .mk "Layer" [] none (XForest.ofList
    [txtEl "Name" "demo",
     .mk "EX_GeographicBoundingBox" [] none (XForest.ofList
       [txtEl "westBoundLongitude" "3.05",
        txtEl "eastBoundLongitude" "7.35",
        txtEl "southBoundLatitude" "50.73",
        txtEl "northBoundLatitude" "53.72"])])

/-- The value the sweep's result accumulation denotes (proved below): every
accessible layer contributes, in discovery order, one successful result per
planned concurrency level for which the ab run succeeds. -/
def sweep_results (t : GeoServerTester) (env : Env) (tr : Nat)
    (levels : List Nat) (ts : String) : List BenchmarkResult :=
  (t.layers.filter (fun kv => (test_connectivity t env kv.1).1)).flatMap
    (fun kv => levels.filterMap (fun c => single_result t env kv.1 c tr ts))

/-- Tester fixture: one discovered layer behind a configured server URL. -/
def tWit : GeoServerTester :=
  { server_url := some "http://example.test", layers := [("L", { name := "L", title := "L" })] }

/-- Environment fixture: every tile GET returns 200 and every ab run reports
40 failed requests out of the batch. -/
def envWit : Env :=
  { http_get_status := fun _ => some 200
    ab_run := fun _ _ _ => some { failed_requests := some 40 } }

/-- Tester fixture with three discovered layers. -/
def t3Wit : GeoServerTester :=
  { server_url := some "http://example.test"
    layers := [("L1", { name := "L1", title := "L1" }),
               ("L2", { name := "L2", title := "L2" }),
               ("L3", { name := "L3", title := "L3" })] }

/-- Environment fixture in which only layer L2's tile probe fails (HTTP 404)
while every ab run succeeds with clean metrics. -/
def env3Wit : Env :=
  { http_get_status := fun url => if containsSubstr url "LAYER=L2&" then some 404 else some 200
    ab_run := fun _ _ _ => some { failed_requests := some 0 } }

/-- Environment fixture in which every tile probe succeeds but every ab run
fails (non-zero exit), so a sweep accumulates no results. -/
def envFailWit : Env :=
  { http_get_status := fun _ => some 200
    ab_run := fun _ _ _ => none }

/-- A representative Apache Bench report transcript. -/
def sampleAbReport : String :=
  "Concurrency Level:      10\n" ++
  "Time taken for tests:   49.75 seconds\n" ++
  "Complete requests:      100\n" ++
  "Failed requests:        0\n" ++
  "Requests per second:    100.50 [#/sec] (mean)\n" ++
  "Time per request:       9.95 [ms] (mean)\n" ++
  "Time per request:       0.995 [ms] (mean, across all concurrent requests)\n" ++
  "Transfer rate:          1500.25 [Kbytes/sec] received\n"

/-! ## Helper lemmas -/

lemma string_data_inj {s t : String} (h : s.data = t.data) : s = t := by
  cases s
  cases t
  exact congrArg String.mk h

lemma consolidatedFileName_inj {st a b : String}
    (h : consolidatedFileName st a = consolidatedFileName st b) : a = b := by
  unfold consolidatedFileName at h
  have hd := congrArg String.data h
  simp only [String.data_append, List.append_assoc] at hd
  have h1 := List.append_cancel_left hd
  have h2 := List.append_cancel_left h1
  have h3 := List.append_cancel_left h2
  have h4 := List.append_cancel_right h3
  exact string_data_inj h4

lemma readStore_writeStore_self (s : Store) (n : String) (r : ConsolidatedRecord) :
    readStore (writeStore s n r) n = some r := by
  simp [readStore, writeStore, List.lookup]

lemma readStore_writeStore_ne {n n' : String} (s : Store) (r : ConsolidatedRecord)
    (h : n' ≠ n) : readStore (writeStore s n r) n' = readStore s n' := by
  simp only [readStore, writeStore, List.lookup]
  rw [show (n' == n) = false by simpa using h]

lemma mem_targets_iff (rs : List BenchmarkResult) (x : String) :
    x ∈ (rs.map (fun r => r.target)).dedup ↔ ∃ r ∈ rs, r.target = x := by
  simp [List.mem_dedup, List.mem_map]

lemma lookup_isSome_of_mem {l : List (String × LayerInfo)} {kv : String × LayerInfo}
    (h : kv ∈ l) : ∃ info, l.lookup kv.1 = some info := by
  induction l with
  | nil => cases h
  | cons hd tl ih =>
    by_cases hk : kv.1 = hd.1
    · exact ⟨hd.2, by simp [List.lookup, hk]⟩
    · rcases List.mem_cons.mp h with heq | htl
      · exact absurd (congrArg Prod.fst heq) hk
      · obtain ⟨info, hinfo⟩ := ih htl
        refine ⟨info, ?_⟩
        have hbeq : (kv.1 == hd.1) = false := by simpa using hk
        simpa [List.lookup, hbeq] using hinfo

lemma test_connectivity_true_base {t : GeoServerTester} {env : Env} {k : String}
    (h : (test_connectivity t env k).1 = true) : wmtsBase t ≠ "" := by
  intro hb
  simp [test_connectivity, generate_tile_url, hb] at h

lemma run_single_test_eq_single_result {t : GeoServerTester} {env : Env}
    {k : String} {c tr : Nat} {ts : String} (now : String)
    (hbase : wmtsBase t ≠ "") (hlook : ∃ info, t.layers.lookup k = some info)
    (htr : 0 < tr) :
    run_single_test t env k c tr (some ts) now = .ok (single_result t env k c tr ts) := by
  obtain ⟨info, hl⟩ := hlook
  have htr' : tr ≠ 0 := Nat.pos_iff_ne_zero.mp htr
  cases hab : env.ab_run (tileUrlStr t k) tr c with
  | none =>
    simp [run_single_test, single_result, generate_tile_url, hbase, hl, hab, htr',
      bind, Except.bind]
  | some m =>
    simp [run_single_test, single_result, generate_tile_url, hbase, hl, hab, htr',
      bind, Except.bind]

lemma single_result_fields {t : GeoServerTester} {env : Env} {k : String}
    {c tr : Nat} {ts : String} {r : BenchmarkResult}
    (h : single_result t env k c tr ts = some r) :
    r.target = k ∧ r.concurrency = c := by
  by_cases hb : wmtsBase t = ""
  · simp [single_result, run_single_test, generate_tile_url, hb, bind, Except.bind] at h
  · cases hl : t.layers.lookup k with
    | none =>
      simp [single_result, run_single_test, generate_tile_url, hb, hl, bind, Except.bind] at h
    | some info =>
      cases hab : env.ab_run (tileUrlStr t k) tr c with
      | none =>
        simp [single_result, run_single_test, generate_tile_url, hb, hl, hab,
          bind, Except.bind] at h
      | some m =>
        by_cases htr : tr = 0
        · subst htr
          simp [single_result, run_single_test, generate_tile_url, hb, hl, hab,
            bind, Except.bind] at h
        · simp [single_result, run_single_test, generate_tile_url, hb, hl, hab, htr,
            bind, Except.bind] at h
          subst h
          exact ⟨rfl, rfl⟩

lemma sweepLevels_eq {t : GeoServerTester} {env : Env} {k : String} {tr : Nat}
    {ts : String} (now : String)
    (hbase : wmtsBase t ≠ "") (hlook : ∃ info, t.layers.lookup k = some info)
    (htr : 0 < tr) :
    ∀ (cs : List Nat) (acc : List BenchmarkResult),
      sweepLevels t env k tr ts now cs acc =
        .ok (acc ++ cs.filterMap (fun c => single_result t env k c tr ts)) := by
  intro cs
  induction cs with
  | nil => intro acc; simp [sweepLevels]
  | cons c cs ih =>
    intro acc
    rw [sweepLevels]
    rw [show (do
        let r ← run_single_test t env k c tr (some ts) now
        sweepLevels t env k tr ts now cs
          (match r with | some x => acc ++ [x] | none => acc)) =
      sweepLevels t env k tr ts now cs
        (match single_result t env k c tr ts with
         | some x => acc ++ [x] | none => acc) by
      rw [run_single_test_eq_single_result now hbase hlook htr]
      rfl]
    cases hsr : single_result t env k c tr ts with
    | none => simp [ih, hsr, List.filterMap_cons]
    | some x => simp [ih, hsr, List.filterMap_cons]

lemma sweepLayers_eq {t : GeoServerTester} {env : Env} {tr : Nat}
    {levels : List Nat} {ts : String} (now : String) (htr : 0 < tr) :
    ∀ (ls : List (String × LayerInfo)) (acc : List BenchmarkResult),
      (∀ kv ∈ ls, ∃ info, t.layers.lookup kv.1 = some info) →
      sweepLayers t env tr levels ts now ls acc =
        .ok (acc ++ (ls.filter (fun kv => (test_connectivity t env kv.1).1)).flatMap
          (fun kv => levels.filterMap (fun c => single_result t env kv.1 c tr ts))) := by
  intro ls
  induction ls with
  | nil => intro acc _; simp [sweepLayers]
  | cons kv rest ih =>
    intro acc hmem
    have hkv := hmem kv (List.mem_cons_self kv rest)
    have hrest : ∀ kv' ∈ rest, ∃ info, t.layers.lookup kv'.1 = some info :=
      fun kv' h' => hmem kv' (List.mem_cons_of_mem _ h')
    by_cases hacc : (test_connectivity t env kv.1).1 = true
    · have hbase := test_connectivity_true_base hacc
      rw [sweepLayers, if_pos hacc]
      rw [show (do
          let acc' ← sweepLevels t env kv.1 tr ts now levels acc
          sweepLayers t env tr levels ts now rest acc') =
        sweepLayers t env tr levels ts now rest
          (acc ++ levels.filterMap (fun c => single_result t env kv.1 c tr ts)) by
        rw [sweepLevels_eq now hbase hkv htr]
        rfl]
      rw [ih _ hrest]
      simp [List.filter_cons, hacc]
    · rw [sweepLayers, if_neg hacc, ih _ hrest]
      have hacc' : (test_connectivity t env kv.1).1 = false := by
        simpa using hacc
      simp [List.filter_cons, hacc']

lemma run_comprehensive_test_eq (t : GeoServerTester) (env : Env) (tr : Nat)
    (cl : Option (List Nat)) (ts now : String) (htr : 0 < tr) :
    run_comprehensive_test t env tr cl ts now =
      .ok (sweep_results t env tr (plan_concurrency_levels (cl.getD CONCURRENCY_LEVELS) tr) ts,
        if (sweep_results t env tr (plan_concurrency_levels (cl.getD CONCURRENCY_LEVELS) tr) ts).isEmpty
        then ([] : Store)
        else (consolidate_results [] "geoserver"
          (sweep_results t env tr (plan_concurrency_levels (cl.getD CONCURRENCY_LEVELS) tr) ts) ts
          { total_requests := tr
            concurrency_levels := plan_concurrency_levels (cl.getD CONCURRENCY_LEVELS) tr
            layers_tested := t.layers.map (fun kv => kv.1)
            server := t.server_url.getD "unknown" } now).1) := by
  have hmem : ∀ kv ∈ t.layers, ∃ info, t.layers.lookup kv.1 = some info :=
    fun kv h => lookup_isSome_of_mem h
  rw [run_comprehensive_test]
  rw [show (do
      let all_results ← sweepLayers t env tr
        (plan_concurrency_levels (cl.getD CONCURRENCY_LEVELS) tr) ts now t.layers []
      let store :=
        if all_results.isEmpty then ([] : Store)
        else (consolidate_results [] "geoserver" all_results ts
          { total_requests := tr
            concurrency_levels := plan_concurrency_levels (cl.getD CONCURRENCY_LEVELS) tr
            layers_tested := t.layers.map (fun kv => kv.1)
            server := t.server_url.getD "unknown" } now).1
      pure (all_results, store) :
        Except String (List BenchmarkResult × Store)) =
    (let all_results := sweep_results t env tr
        (plan_concurrency_levels (cl.getD CONCURRENCY_LEVELS) tr) ts
     let store :=
        if all_results.isEmpty then ([] : Store)
        else (consolidate_results [] "geoserver" all_results ts
          { total_requests := tr
            concurrency_levels := plan_concurrency_levels (cl.getD CONCURRENCY_LEVELS) tr
            layers_tested := t.layers.map (fun kv => kv.1)
            server := t.server_url.getD "unknown" } now).1
     .ok (all_results, store)) by
    rw [sweepLayers_eq now htr t.layers [] hmem]
    rfl]

/-! ## Claim theorems -/

unseal Rat.add Rat.mul Rat.inv Rat.sub Rat.ofScientific in
/-- C8: a structured geographic bbox with west 3.05, east 7.35, south 50.73,
north 53.72 parses to minx 3.05 / miny 50.73 / maxx 7.35 / maxy 53.72 when the
document is namespaced — but the same document with unnamespaced tags makes
the parser raise (the unnamespaced-fallback lookup resolves the prefixed path
without a namespace map, which is a SyntaxError in ElementTree), so the claimed
namespace-independence fails on the code. -/
theorem parse_bbox_namespace_dependent :
    parse_bbox nsLayerFixture =
      .ok (some { minx := 3.05, miny := 50.73, maxx := 7.35, maxy := 53.72 }) ∧
    parse_bbox plainLayerFixture = .error "SyntaxError" := by
  constructor
  · decide
  · decide

/-- C1: two consolidations with distinct session timestamps write distinct
files (the name depends only on service type and timestamp); each record's
targets_tested holds exactly the targets of its own result list; and after the
second session is written, re-reading the first session's file still returns
exactly the first record. -/
theorem consolidate_results_session_isolation
    (store : Store) (st : String) (rs1 rs2 : List BenchmarkResult)
    (ts1 ts2 : String) (cfg1 cfg2 : TestConfig) (now1 now2 : String)
    (hts : ts1 ≠ ts2) :
    (consolidate_results store st rs1 ts1 cfg1 now1).2.1 ≠
      (consolidate_results (consolidate_results store st rs1 ts1 cfg1 now1).1
        st rs2 ts2 cfg2 now2).2.1 ∧
    (∀ x, x ∈ (consolidate_results store st rs1 ts1 cfg1 now1).2.2.test_suite.targets_tested
       ↔ ∃ r ∈ rs1, r.target = x) ∧
    (∀ x, x ∈ (consolidate_results (consolidate_results store st rs1 ts1 cfg1 now1).1
          st rs2 ts2 cfg2 now2).2.2.test_suite.targets_tested
       ↔ ∃ r ∈ rs2, r.target = x) ∧
    readStore (consolidate_results (consolidate_results store st rs1 ts1 cfg1 now1).1
        st rs2 ts2 cfg2 now2).1
        (consolidate_results store st rs1 ts1 cfg1 now1).2.1 =
      readStore (consolidate_results store st rs1 ts1 cfg1 now1).1
        (consolidate_results store st rs1 ts1 cfg1 now1).2.1 ∧
    readStore (consolidate_results store st rs1 ts1 cfg1 now1).1
        (consolidate_results store st rs1 ts1 cfg1 now1).2.1 =
      some (consolidate_results store st rs1 ts1 cfg1 now1).2.2 := by
  have hname : consolidatedFileName st ts1 ≠ consolidatedFileName st ts2 :=
    fun h => hts (consolidatedFileName_inj h)
  refine ⟨hname, ?_, ?_, ?_, ?_⟩
  · intro x
    exact mem_targets_iff rs1 x
  · intro x
    exact mem_targets_iff rs2 x
  · exact readStore_writeStore_ne _ _ hname
  · exact readStore_writeStore_self _ _ _

/-- C1 witness: concrete instantiation with two one-result sessions and
distinct timestamps. -/
theorem consolidate_results_session_isolation_witness :
    ("20250101_101010" : String) ≠ "20250101_202020" ∧
    ((consolidate_results [] "geoserver" [] "20250101_101010" ⟨100, [1], [], "s", none⟩ "d1").2.1 ≠
      (consolidate_results (consolidate_results [] "geoserver" [] "20250101_101010" ⟨100, [1], [], "s", none⟩ "d1").1
        "geoserver" [] "20250101_202020" ⟨100, [1], [], "s", none⟩ "d2").2.1 ∧
    (∀ x, x ∈ (consolidate_results [] "geoserver" [] "20250101_101010" ⟨100, [1], [], "s", none⟩ "d1").2.2.test_suite.targets_tested
       ↔ ∃ r ∈ ([] : List BenchmarkResult), r.target = x) ∧
    (∀ x, x ∈ (consolidate_results (consolidate_results [] "geoserver" [] "20250101_101010" ⟨100, [1], [], "s", none⟩ "d1").1
          "geoserver" [] "20250101_202020" ⟨100, [1], [], "s", none⟩ "d2").2.2.test_suite.targets_tested
       ↔ ∃ r ∈ ([] : List BenchmarkResult), r.target = x) ∧
    readStore (consolidate_results (consolidate_results [] "geoserver" [] "20250101_101010" ⟨100, [1], [], "s", none⟩ "d1").1
        "geoserver" [] "20250101_202020" ⟨100, [1], [], "s", none⟩ "d2").1
        (consolidate_results [] "geoserver" [] "20250101_101010" ⟨100, [1], [], "s", none⟩ "d1").2.1 =
      readStore (consolidate_results [] "geoserver" [] "20250101_101010" ⟨100, [1], [], "s", none⟩ "d1").1
        (consolidate_results [] "geoserver" [] "20250101_101010" ⟨100, [1], [], "s", none⟩ "d1").2.1 ∧
    readStore (consolidate_results [] "geoserver" [] "20250101_101010" ⟨100, [1], [], "s", none⟩ "d1").1
        (consolidate_results [] "geoserver" [] "20250101_101010" ⟨100, [1], [], "s", none⟩ "d1").2.1 =
      some (consolidate_results [] "geoserver" [] "20250101_101010" ⟨100, [1], [], "s", none⟩ "d1").2.2) :=
  ⟨by decide,
   consolidate_results_session_isolation [] "geoserver" [] [] "20250101_101010"
     "20250101_202020" ⟨100, [1], [], "s", none⟩ ⟨100, [1], [], "s", none⟩ "d1" "d2"
     (by decide)⟩

/-- C6: the consolidated record's targets_tested is duplicate-free and holds
exactly the targets occurring in the input results, total_tests equals the
input length, and re-reading the persisted file returns the record, whose
results array has the input length. -/
theorem consolidate_results_round_trip
    (store : Store) (st : String) (rs : List BenchmarkResult)
    (ts : String) (cfg : TestConfig) (now : String) :
    (consolidate_results store st rs ts cfg now).2.2.test_suite.targets_tested.Nodup ∧
    (∀ x, x ∈ (consolidate_results store st rs ts cfg now).2.2.test_suite.targets_tested
       ↔ ∃ r ∈ rs, r.target = x) ∧
    (consolidate_results store st rs ts cfg now).2.2.test_suite.total_tests = rs.length ∧
    readStore (consolidate_results store st rs ts cfg now).1
        (consolidate_results store st rs ts cfg now).2.1 =
      some (consolidate_results store st rs ts cfg now).2.2 ∧
    (consolidate_results store st rs ts cfg now).2.2.results.length = rs.length := by
  refine ⟨List.nodup_dedup _, ?_, rfl, readStore_writeStore_self _ _ _, ?_⟩
  · intro x
    exact mem_targets_iff rs x
  · simp [consolidate_results]

/-- C9: when a single test completes successfully (the ab oracle returns
metrics) with a positive request count, the assembled BenchmarkResult carries
success_rate = (total_requests - failed_requests) / total_requests * 100. -/
theorem run_single_test_success_rate
    (t : GeoServerTester) (env : Env) (k ts now : String) (c tr : Nat)
    (m : AbMetrics) (info : LayerInfo)
    (hbase : wmtsBase t ≠ "")
    (hlook : t.layers.lookup k = some info)
    (hab : env.ab_run (tileUrlStr t k) tr c = some m)
    (htr : 0 < tr) :
    run_single_test t env k c tr (some ts) now =
      Except.ok (some
        { target := k
          service_type := "geoserver"
          concurrency := c
          total_requests := tr
          requests_per_second := m.requests_per_second.getD 0
          mean_response_time := m.mean_response_time.getD 0
          failed_requests := m.failed_requests.getD 0
          total_time := m.total_time.getD 0
          transfer_rate := m.transfer_rate.getD 0
          success_rate := ((tr : Rat) - ((m.failed_requests.getD 0 : Int) : Rat)) / (tr : Rat) * 100
          test_id := k ++ "_c" ++ toString c ++ "_" ++ ts
          timestamp := ts }) := by
  have htr' : tr ≠ 0 := Nat.pos_iff_ne_zero.mp htr
  simp [run_single_test, generate_tile_url, hbase, hlook, hab, htr', bind, Except.bind]

unseal Rat.add Rat.mul Rat.inv Rat.sub in
/-- C9 witness: 1000 total requests with 40 failures give success rate
exactly 96. -/
theorem run_single_test_success_rate_witness :
    (0 : Nat) < 1000 ∧
    ∃ r, run_single_test tWit envWit "L" 10 1000 (some "TS") "" = Except.ok (some r) ∧
      r.success_rate = 96 := by
  have h := run_single_test_success_rate tWit envWit "L" "TS" "" 10 1000
    { failed_requests := some 40 } { name := "L", title := "L" }
    (by decide) (by decide) rfl (by decide)
  exact ⟨by decide, _, h, by decide⟩

/-- C10: a layer key absent from the discovered-layer map makes
run_single_test raise the missing-key error instead of returning the
contractual absent value, for every environment — in particular no load test
is attempted. -/
theorem run_single_test_undiscovered_layer
    (t : GeoServerTester) (env : Env) (k : String) (c tr : Nat) (ts now : String)
    (hbase : wmtsBase t ≠ "")
    (hmiss : t.layers.lookup k = none) :
    run_single_test t env k c tr (some ts) now = Except.error "KeyError" := by
  simp [run_single_test, generate_tile_url, hbase, hmiss, bind, Except.bind]

/-- C10 witness: the fixture tester knows layer L only, so testing layer M
raises the missing-key error. -/
theorem run_single_test_undiscovered_layer_witness :
    tWit.layers.lookup "M" = none ∧
    run_single_test tWit envWit "M" 1 10 (some "TS") "" = Except.error "KeyError" :=
  ⟨by decide,
   run_single_test_undiscovered_layer tWit envWit "M" 1 10 "TS" "" (by decide) (by decide)⟩

/-- C2: the comprehensive sweep never raises; a layer whose accessibility
probe fails contributes no result at all; and every successful test of every
accessible layer is accumulated — the result list is exactly the accessible
layers' contributions, so an unreachable layer cannot abort the remaining
layers' tests. -/
theorem run_comprehensive_test_partial_failure
    (t : GeoServerTester) (env : Env) (tr : Nat) (cl : Option (List Nat))
    (ts now : String) (k : String) (htr : 0 < tr)
    (hfail : (test_connectivity t env k).1 = false) :
    ∃ pair, run_comprehensive_test t env tr cl ts now = Except.ok pair ∧
      pair.1 = sweep_results t env tr (plan_concurrency_levels (cl.getD CONCURRENCY_LEVELS) tr) ts ∧
      (∀ r ∈ pair.1, r.target ≠ k) ∧
      (∀ kv ∈ t.layers, (test_connectivity t env kv.1).1 = true →
        ∀ c ∈ plan_concurrency_levels (cl.getD CONCURRENCY_LEVELS) tr,
          ∀ r, single_result t env kv.1 c tr ts = some r → r ∈ pair.1) := by
  refine ⟨_, run_comprehensive_test_eq t env tr cl ts now htr, rfl, ?_, ?_⟩
  · intro r hr hrk
    obtain ⟨kv, hkvmem, hrf⟩ := List.mem_flatMap.mp hr
    obtain ⟨c, _, hsr⟩ := List.mem_filterMap.mp hrf
    have htar := (single_result_fields hsr).1
    have hacc := (List.mem_filter.mp hkvmem).2
    rw [htar] at hrk
    rw [hrk] at hacc
    rw [hfail] at hacc
    cases hacc
  · intro kv hkv hacckv c hc r hr
    exact List.mem_flatMap.mpr
      ⟨kv, List.mem_filter.mpr ⟨hkv, hacckv⟩, List.mem_filterMap.mpr ⟨c, hc, hr⟩⟩

/-- C2 witness: three layers of which L2's probe fails (HTTP 404); the sweep
still returns and L2 contributes nothing. -/
theorem run_comprehensive_test_partial_failure_witness :
    (0 : Nat) < 10 ∧ (test_connectivity t3Wit env3Wit "L2").1 = false ∧
    (∃ pair, run_comprehensive_test t3Wit env3Wit 10 (some [1, 2]) "TS" "D" = Except.ok pair ∧
      pair.1 = sweep_results t3Wit env3Wit 10
        (plan_concurrency_levels ((some [1, 2]).getD CONCURRENCY_LEVELS) 10) "TS" ∧
      (∀ r ∈ pair.1, r.target ≠ "L2") ∧
      (∀ kv ∈ t3Wit.layers, (test_connectivity t3Wit env3Wit kv.1).1 = true →
        ∀ c ∈ plan_concurrency_levels ((some [1, 2]).getD CONCURRENCY_LEVELS) 10,
          ∀ r, single_result t3Wit env3Wit kv.1 c 10 "TS" = some r → r ∈ pair.1)) :=
  ⟨by decide, by decide,
   run_comprehensive_test_partial_failure t3Wit env3Wit 10 (some [1, 2]) "TS" "D" "L2"
     (by decide) (by decide)⟩

/-- C3: every planned concurrency level is at most the total request count;
when every requested level exceeds the budget the planner falls back to
exactly [min 100 totalRequests]; and consequently every result the sweep
accumulates was run at a concurrency of at most the total request count. -/
theorem plan_levels_within_budget
    (t : GeoServerTester) (env : Env) (requested : List Nat) (tr : Nat)
    (ts now : String) (htr : 0 < tr) :
    (∀ c ∈ plan_concurrency_levels requested tr, c ≤ tr) ∧
    ((∀ c ∈ requested, tr < c) → plan_concurrency_levels requested tr = [min 100 tr]) ∧
    (∀ pair, run_comprehensive_test t env tr (some requested) ts now = Except.ok pair →
      ∀ r ∈ pair.1, r.concurrency ≤ tr) := by
  have hle : ∀ c ∈ plan_concurrency_levels requested tr, c ≤ tr := by
    intro c hc
    by_cases he : (requested.filter (fun c => c ≤ tr)).isEmpty
    · simp only [plan_concurrency_levels, he, if_true] at hc
      rcases List.mem_singleton.mp hc with rfl
      exact Nat.min_le_right 100 tr
    · simp only [plan_concurrency_levels, he, if_false] at hc
      simpa using (List.mem_filter.mp hc).2
  refine ⟨hle, ?_, ?_⟩
  · intro hall
    have hnil : requested.filter (fun c => c ≤ tr) = [] :=
      List.filter_eq_nil_iff.mpr (fun c hc => by simpa using Nat.not_le.mpr (hall c hc))
    simp [plan_concurrency_levels, hnil]
  · intro pair hpair r hr
    rw [run_comprehensive_test_eq t env tr (some requested) ts now htr] at hpair
    cases hpair
    obtain ⟨kv, _, hrf⟩ := List.mem_flatMap.mp hr
    obtain ⟨c, hc, hsr⟩ := List.mem_filterMap.mp hrf
    rw [(single_result_fields hsr).2]
    exact hle c hc

/-- C3 witness: requested [1, 10, 5000] against 100 total requests. -/
theorem plan_levels_within_budget_witness :
    (0 : Nat) < 100 ∧
    ((∀ c ∈ plan_concurrency_levels [1, 10, 5000] 100, c ≤ 100) ∧
     ((∀ c ∈ [1, 10, 5000], 100 < c) → plan_concurrency_levels [1, 10, 5000] 100 = [min 100 100]) ∧
     (∀ pair, run_comprehensive_test tWit envWit 100 (some [1, 10, 5000]) "TS" "D" = Except.ok pair →
       ∀ r ∈ pair.1, r.concurrency ≤ 100)) :=
  ⟨by decide, plan_levels_within_budget tWit envWit [1, 10, 5000] 100 "TS" "D" (by decide)⟩

lemma filterMap_single_map_concurrency (t : GeoServerTester) (env : Env)
    (k : String) (tr : Nat) (ts : String) :
    ∀ cs : List Nat,
      ((cs.filterMap (fun c => single_result t env k c tr ts)).map (fun r => r.concurrency)) =
        cs.filter (fun c => (single_result t env k c tr ts).isSome) := by
  intro cs
  induction cs with
  | nil => rfl
  | cons c cs ih =>
    cases hsr : single_result t env k c tr ts with
    | none => simp [List.filterMap_cons, List.filter_cons, hsr, ih]
    | some r =>
      have hc := (single_result_fields hsr).2
      simp [List.filterMap_cons, List.filter_cons, hsr, ih, hc]

lemma flatMap_filter_target {f : String × LayerInfo → List BenchmarkResult} :
    ∀ {ls : List (String × LayerInfo)} {kv : String × LayerInfo},
      (ls.map Prod.fst).Nodup → kv ∈ ls →
      (∀ kv' ∈ ls, ∀ r ∈ f kv', r.target = kv'.1) →
      ((ls.flatMap f).filter (fun r => r.target == kv.1)) = f kv := by
  intro ls
  induction ls with
  | nil => intro kv _ hmem; cases hmem
  | cons hd tl ih =>
    intro kv hnd hmem htar
    have hnd0 : (hd.1 :: tl.map Prod.fst).Nodup := by simpa using hnd
    have hnd' := List.nodup_cons.mp hnd0
    rw [List.flatMap_cons, List.filter_append]
    rcases List.mem_cons.mp hmem with rfl | htl
    · have h1 : (f kv).filter (fun r => r.target == kv.1) = f kv :=
        List.filter_eq_self.mpr (fun r hr => by
          simp [htar kv (List.mem_cons_self kv tl) r hr])
      have h2 : (tl.flatMap f).filter (fun r => r.target == kv.1) = [] := by
        apply List.filter_eq_nil_iff.mpr
        intro r hr
        obtain ⟨kv', hkv', hrf⟩ := List.mem_flatMap.mp hr
        have := htar kv' (List.mem_cons_of_mem _ hkv') r hrf
        have hne : kv'.1 ≠ kv.1 := by
          intro heq
          exact hnd'.1 (heq ▸ List.mem_map_of_mem Prod.fst hkv')
        simp [this, hne]
      rw [h1, h2, List.append_nil]
    · have h1 : (f hd).filter (fun r => r.target == kv.1) = [] := by
        apply List.filter_eq_nil_iff.mpr
        intro r hr
        have := htar hd (List.mem_cons_self hd tl) r hr
        have hne : hd.1 ≠ kv.1 := by
          intro heq
          exact hnd'.1 (heq ▸ List.mem_map_of_mem Prod.fst htl)
        simp [this, hne]
      rw [h1, List.nil_append]
      exact ih hnd'.2 htl (fun kv' h' => htar kv' (List.mem_cons_of_mem _ h'))

unseal Rat.add Rat.mul Rat.inv Rat.sub in
/-- C4 counterexample: the planner neither dedupes nor sorts — requesting
[10, 5, 10] with 100 total requests keeps the list exactly as given
(duplicate 10, not ascending), and a sweep over one accessible layer executes
the tests in that order, so execution is not strictly ascending. -/
theorem plan_no_dedupe_no_sort_counterexample :
    plan_concurrency_levels [10, 5, 10] 100 = [10, 5, 10] ∧
    ¬ (plan_concurrency_levels [10, 5, 10] 100).Nodup ∧
    ¬ (plan_concurrency_levels [10, 5, 10] 100).Pairwise (· < ·) ∧
    (run_comprehensive_test tWit envWit 100 (some [10, 5, 10]) "TS" "D").map
        (fun p => p.1.map (fun r => r.concurrency)) = Except.ok [10, 5, 10] := by
  exact ⟨by decide, by decide, by decide, by decide⟩

/-- C4 amended: the planner preserves the requested list's order and
multiplicity — its output is the requested list filtered of over-budget
levels (a sublist of the input), or the fallback singleton; and within a
sweep an accessible layer's results appear in exactly that filtered order
(restricted to the tests that succeeded), not in sorted order. -/
theorem plan_order_preserving
    (t : GeoServerTester) (env : Env) (requested : List Nat) (tr : Nat)
    (ts now : String) (htr : 0 < tr) (hnd : (t.layers.map Prod.fst).Nodup) :
    (plan_concurrency_levels requested tr = [min 100 tr] ∨
      (plan_concurrency_levels requested tr).Sublist requested) ∧
    (∀ pair, run_comprehensive_test t env tr (some requested) ts now = Except.ok pair →
      ∀ kv ∈ t.layers, (test_connectivity t env kv.1).1 = true →
        (pair.1.filter (fun r => r.target == kv.1)).map (fun r => r.concurrency) =
          (plan_concurrency_levels requested tr).filter
            (fun c => (single_result t env kv.1 c tr ts).isSome)) := by
  constructor
  · by_cases he : (requested.filter (fun c => c ≤ tr)).isEmpty
    · exact Or.inl (by simp [plan_concurrency_levels, he])
    · refine Or.inr ?_
      simp only [plan_concurrency_levels, he, if_false]
      exact List.filter_sublist requested
  · intro pair hpair kv hkv hacc
    rw [run_comprehensive_test_eq t env tr (some requested) ts now htr] at hpair
    cases hpair
    have hndf : ((t.layers.filter (fun kv => (test_connectivity t env kv.1).1)).map Prod.fst).Nodup :=
      List.Nodup.sublist (List.Sublist.map Prod.fst (List.filter_sublist t.layers)) hnd
    have hmemf : kv ∈ t.layers.filter (fun kv => (test_connectivity t env kv.1).1) :=
      List.mem_filter.mpr ⟨hkv, hacc⟩
    have htar : ∀ kv' ∈ t.layers.filter (fun kv => (test_connectivity t env kv.1).1),
        ∀ r ∈ (plan_concurrency_levels requested tr).filterMap
          (fun c => single_result t env kv'.1 c tr ts), r.target = kv'.1 := by
      intro kv' _ r hr
      obtain ⟨c, _, hsr⟩ := List.mem_filterMap.mp hr
      exact (single_result_fields hsr).1
    calc ((sweep_results t env tr (plan_concurrency_levels requested tr) ts).filter
            (fun r => r.target == kv.1)).map (fun r => r.concurrency)
        = ((plan_concurrency_levels requested tr).filterMap
            (fun c => single_result t env kv.1 c tr ts)).map (fun r => r.concurrency) := by
          rw [show sweep_results t env tr (plan_concurrency_levels requested tr) ts =
            (t.layers.filter (fun kv => (test_connectivity t env kv.1).1)).flatMap
              (fun kv => (plan_concurrency_levels requested tr).filterMap
                (fun c => single_result t env kv.1 c tr ts)) from rfl]
          rw [flatMap_filter_target hndf hmemf htar]
      _ = (plan_concurrency_levels requested tr).filter
            (fun c => (single_result t env kv.1 c tr ts).isSome) :=
          filterMap_single_map_concurrency t env kv.1 tr ts _

/-- C4 amended witness: three layers, L2 inaccessible, requested [2, 1, 2]
against 10 total requests. -/
theorem plan_order_preserving_witness :
    ((0 : Nat) < 10 ∧ (t3Wit.layers.map Prod.fst).Nodup) ∧
    ((plan_concurrency_levels [2, 1, 2] 10 = [min 100 10] ∨
      (plan_concurrency_levels [2, 1, 2] 10).Sublist [2, 1, 2]) ∧
    (∀ pair, run_comprehensive_test t3Wit env3Wit 10 (some [2, 1, 2]) "TS" "D" = Except.ok pair →
      ∀ kv ∈ t3Wit.layers, (test_connectivity t3Wit env3Wit kv.1).1 = true →
        (pair.1.filter (fun r => r.target == kv.1)).map (fun r => r.concurrency) =
          (plan_concurrency_levels [2, 1, 2] 10).filter
            (fun c => (single_result t3Wit env3Wit kv.1 c 10 "TS").isSome))) :=
  ⟨⟨by decide, by decide⟩,
   plan_order_preserving t3Wit env3Wit [2, 1, 2] 10 "TS" "D" (by decide) (by decide)⟩

/-- C7 counterexample: a completed sweep in which every individual test
failed accumulates no results and performs no consolidation at all — the
result directory ends empty and re-reading the session's consolidated file
name finds nothing, contradicting the claim that every completed sweep
persists a consolidated record. -/
theorem empty_sweep_not_consolidated_counterexample :
    run_comprehensive_test tWit envFailWit 10 (some [1]) "TS" "D" = Except.ok ([], []) ∧
    readStore ([] : Store) (consolidatedFileName "geoserver" "TS") = none := by
  exact ⟨by decide, rfl⟩

/-- C7 amended: a completed sweep consolidates exactly when it accumulated at
least one result; in that case the consolidated record carries the full
result list (same length, same targets) and the session's test configuration,
and is persisted under the session's file name; an empty sweep leaves the
cleared result directory empty. -/
theorem run_comprehensive_test_consolidation
    (t : GeoServerTester) (env : Env) (tr : Nat) (cl : Option (List Nat))
    (ts now : String) (htr : 0 < tr) :
    ∃ rs store, run_comprehensive_test t env tr cl ts now = Except.ok (rs, store) ∧
      (rs = [] → store = []) ∧
      (rs ≠ [] → ∃ rec, readStore store (consolidatedFileName "geoserver" ts) = some rec ∧
        rec.results.length = rs.length ∧
        rec.test_suite.total_tests = rs.length ∧
        rec.configuration =
          { total_requests := tr
            concurrency_levels := plan_concurrency_levels (cl.getD CONCURRENCY_LEVELS) tr
            layers_tested := t.layers.map (fun kv => kv.1)
            server := t.server_url.getD "unknown" } ∧
        (∀ x, x ∈ rec.test_suite.targets_tested ↔ ∃ r ∈ rs, r.target = x)) := by
  refine ⟨_, _, run_comprehensive_test_eq t env tr cl ts now htr, ?_, ?_⟩
  · intro hnil
    simp [hnil]
  · intro hne
    have hemp : (sweep_results t env tr
        (plan_concurrency_levels (cl.getD CONCURRENCY_LEVELS) tr) ts).isEmpty = false := by
      simpa [List.isEmpty_iff] using hne
    rw [hemp]
    simp only [Bool.false_eq_true, if_false]
    refine ⟨_, readStore_writeStore_self _ _ _, ?_, rfl, rfl, ?_⟩
    · simp [consolidate_results]
    · intro x
      exact mem_targets_iff _ x

/-- C7 amended witness: a sweep whose tests succeed consolidates its results. -/
theorem run_comprehensive_test_consolidation_witness :
    (0 : Nat) < 10 ∧
    (∃ rs store, run_comprehensive_test tWit envWit 10 (some [1]) "TS" "D" = Except.ok (rs, store) ∧
      (rs = [] → store = []) ∧
      (rs ≠ [] → ∃ rec, readStore store (consolidatedFileName "geoserver" "TS") = some rec ∧
        rec.results.length = rs.length ∧
        rec.test_suite.total_tests = rs.length ∧
        rec.configuration =
          { total_requests := 10
            concurrency_levels := plan_concurrency_levels ((some [1]).getD CONCURRENCY_LEVELS) 10
            layers_tested := tWit.layers.map (fun kv => kv.1)
            server := tWit.server_url.getD "unknown" } ∧
        (∀ x, x ∈ rec.test_suite.targets_tested ↔ ∃ r ∈ rs, r.target = x))) :=
  ⟨by decide, run_comprehensive_test_consolidation tWit envWit 10 (some [1]) "TS" "D" (by decide)⟩

lemma specMetric_cons_neg {α : Type} {p : String → Bool} {e : String → Option α}
    {l : String} {ls : List String} (hp : p l = false) :
    specMetric p e (l :: ls) = specMetric p e ls := by
  simp [specMetric, List.filter_cons, hp]

lemma specMetric_cons_pos {α : Type} {p : String → Bool} {e : String → Option α}
    {l : String} {ls : List String} (hp : p l = true)
    (hwf : ∀ x ∈ ls, p x = true → (e x).isSome) :
    specMetric p e (l :: ls) = (specMetric p e ls).or (e l) := by
  simp only [specMetric, List.filter_cons, hp, if_true]
  cases hfl : (ls.filter p).getLast? with
  | none =>
    have hnil : ls.filter p = [] := by
      cases h : ls.filter p with
      | nil => rfl
      | cons a as => rw [h] at hfl; simp [List.getLast?_cons] at hfl
    rw [hnil]
    simp
  | some g =>
    have hg : g ∈ ls.filter p := List.mem_of_mem_getLast? (by rw [hfl]; exact rfl)
    have hgs : (e g).isSome :=
      hwf g (List.mem_of_mem_filter hg) (List.of_mem_filter hg)
    obtain ⟨w, hw⟩ := Option.isSome_iff_exists.mp hgs
    rw [List.getLast?_cons, hfl]
    simp [hw]

lemma markerCount_unique {l : String} (hc : markerCount l ≤ 1) :
    (isRpsLine l = true →
      isMeanLine l = false ∧ isFailedLine l = false ∧
      isTotalTimeLine l = false ∧ isTransferLine l = false) ∧
    (isMeanLine l = true →
      isFailedLine l = false ∧ isTotalTimeLine l = false ∧ isTransferLine l = false) ∧
    (isFailedLine l = true → isTotalTimeLine l = false ∧ isTransferLine l = false) ∧
    (isTotalTimeLine l = true → isTransferLine l = false) := by
  revert hc
  unfold markerCount
  cases isRpsLine l <;> cases isMeanLine l <;> cases isFailedLine l <;>
    cases isTotalTimeLine l <;> cases isTransferLine l <;> simp

lemma parse_ab_lines_spec :
    ∀ (ls : List String) (acc : AbMetrics),
      (∀ l ∈ ls, markerCount l ≤ 1) →
      (∀ l ∈ ls, lineWellFormed l) →
      parse_ab_lines ls acc = .ok
        { requests_per_second :=
            (specMetric isRpsLine (fun l => tokenFloat l 3) ls).or acc.requests_per_second
          mean_response_time :=
            (specMetric isMeanLine (fun l => tokenFloat l 3) ls).or acc.mean_response_time
          failed_requests :=
            (specMetric isFailedLine (fun l => tokenInt l 2) ls).or acc.failed_requests
          total_time :=
            (specMetric isTotalTimeLine (fun l => tokenFloat l 4) ls).or acc.total_time
          transfer_rate :=
            (specMetric isTransferLine (fun l => tokenFloat l 2) ls).or acc.transfer_rate } := by
  intro ls
  induction ls with
  | nil =>
    intro acc _ _
    simp [parse_ab_lines, specMetric]
  | cons l ls ih =>
    intro acc hcount hwf
    have hcl := hcount l (List.mem_cons_self l ls)
    have hwl := hwf l (List.mem_cons_self l ls)
    have hcount' : ∀ x ∈ ls, markerCount x ≤ 1 :=
      fun x hx => hcount x (List.mem_cons_of_mem _ hx)
    have hwf' : ∀ x ∈ ls, lineWellFormed x :=
      fun x hx => hwf x (List.mem_cons_of_mem _ hx)
    have hwfRps : ∀ x ∈ ls, isRpsLine x = true → (tokenFloat x 3).isSome :=
      fun x hx hp => (hwf' x hx).1 hp
    have hwfMean : ∀ x ∈ ls, isMeanLine x = true → (tokenFloat x 3).isSome :=
      fun x hx hp => (hwf' x hx).2.1 hp
    have hwfFailed : ∀ x ∈ ls, isFailedLine x = true → (tokenInt x 2).isSome :=
      fun x hx hp => (hwf' x hx).2.2.1 hp
    have hwfTT : ∀ x ∈ ls, isTotalTimeLine x = true → (tokenFloat x 4).isSome :=
      fun x hx hp => (hwf' x hx).2.2.2.1 hp
    have hwfTR : ∀ x ∈ ls, isTransferLine x = true → (tokenFloat x 2).isSome :=
      fun x hx hp => (hwf' x hx).2.2.2.2 hp
    by_cases h1 : isRpsLine l = true
    · obtain ⟨h2, h3, h4, h5⟩ := (markerCount_unique hcl).1 h1
      obtain ⟨v, hv⟩ := Option.isSome_iff_exists.mp (hwl.1 h1)
      rw [parse_ab_lines, if_pos h1, hv]
      dsimp only
      rw [ih _ hcount' hwf']
      rw [specMetric_cons_pos h1 hwfRps, specMetric_cons_neg h2,
        specMetric_cons_neg h3, specMetric_cons_neg h4, specMetric_cons_neg h5, hv]
      rcases hs : specMetric isRpsLine (fun l => tokenFloat l 3) ls with _ | w <;> simp [hs]
    · have h1f : isRpsLine l = false := by simpa using h1
      by_cases h2 : isMeanLine l = true
      · obtain ⟨h3, h4, h5⟩ := (markerCount_unique hcl).2.1 h2
        obtain ⟨v, hv⟩ := Option.isSome_iff_exists.mp (hwl.2.1 h2)
        rw [parse_ab_lines, if_neg h1, if_pos h2, hv]
        dsimp only
        rw [ih _ hcount' hwf']
        rw [specMetric_cons_pos h2 hwfMean, specMetric_cons_neg h1f,
          specMetric_cons_neg h3, specMetric_cons_neg h4, specMetric_cons_neg h5, hv]
        rcases hs : specMetric isMeanLine (fun l => tokenFloat l 3) ls with _ | w <;> simp [hs]
      · have h2f : isMeanLine l = false := by simpa using h2
        by_cases h3 : isFailedLine l = true
        · obtain ⟨h4, h5⟩ := (markerCount_unique hcl).2.2.1 h3
          obtain ⟨v, hv⟩ := Option.isSome_iff_exists.mp (hwl.2.2.1 h3)
          rw [parse_ab_lines, if_neg h1, if_neg h2, if_pos h3, hv]
          dsimp only
          rw [ih _ hcount' hwf']
          rw [specMetric_cons_pos h3 hwfFailed, specMetric_cons_neg h1f,
            specMetric_cons_neg h2f, specMetric_cons_neg h4, specMetric_cons_neg h5, hv]
          rcases hs : specMetric isFailedLine (fun l => tokenInt l 2) ls with _ | w <;> simp [hs]
        · have h3f : isFailedLine l = false := by simpa using h3
          by_cases h4 : isTotalTimeLine l = true
          · have h5 := (markerCount_unique hcl).2.2.2 h4
            obtain ⟨v, hv⟩ := Option.isSome_iff_exists.mp (hwl.2.2.2.1 h4)
            rw [parse_ab_lines, if_neg h1, if_neg h2, if_neg h3, if_pos h4, hv]
            dsimp only
            rw [ih _ hcount' hwf']
            rw [specMetric_cons_pos h4 hwfTT, specMetric_cons_neg h1f,
              specMetric_cons_neg h2f, specMetric_cons_neg h3f, specMetric_cons_neg h5, hv]
            rcases hs : specMetric isTotalTimeLine (fun l => tokenFloat l 4) ls with _ | w <;>
              simp [hs]
          · have h4f : isTotalTimeLine l = false := by simpa using h4
            by_cases h5 : isTransferLine l = true
            · obtain ⟨v, hv⟩ := Option.isSome_iff_exists.mp (hwl.2.2.2.2 h5)
              rw [parse_ab_lines, if_neg h1, if_neg h2, if_neg h3, if_neg h4, if_pos h5, hv]
              dsimp only
              rw [ih _ hcount' hwf']
              rw [specMetric_cons_pos h5 hwfTR, specMetric_cons_neg h1f,
                specMetric_cons_neg h2f, specMetric_cons_neg h3f, specMetric_cons_neg h4f, hv]
              rcases hs : specMetric isTransferLine (fun l => tokenFloat l 2) ls with _ | w <;>
                simp [hs]
            · have h5f : isTransferLine l = false := by simpa using h5
              rw [parse_ab_lines, if_neg h1, if_neg h2, if_neg h3, if_neg h4, if_neg h5,
                ih _ hcount' hwf']
              rw [specMetric_cons_neg h1f, specMetric_cons_neg h2f, specMetric_cons_neg h3f,
                specMetric_cons_neg h4f, specMetric_cons_neg h5f]

/-- C5: on any report whose lines match at most one marker each and whose
matching lines are well formed, the parsed metrics map is exactly the
per-line substring-matching description: each metric is the numeric token at
its claimed position on the (last) line containing its marker, and a metric
with no matching line is absent (none), never zero. -/
theorem parse_ab_output_line_matching (output : String)
    (hexcl : ∀ l ∈ strippedLines output, markerCount l ≤ 1)
    (hwf : ∀ l ∈ strippedLines output, lineWellFormed l) :
    parse_ab_output output = .ok
      { requests_per_second :=
          specMetric isRpsLine (fun l => tokenFloat l 3) (strippedLines output)
        mean_response_time :=
          specMetric isMeanLine (fun l => tokenFloat l 3) (strippedLines output)
        failed_requests :=
          specMetric isFailedLine (fun l => tokenInt l 2) (strippedLines output)
        total_time :=
          specMetric isTotalTimeLine (fun l => tokenFloat l 4) (strippedLines output)
        transfer_rate :=
          specMetric isTransferLine (fun l => tokenFloat l 2) (strippedLines output) } ∧
    (∀ (p : String → Bool) (e : String → Option Rat),
      (∀ l ∈ strippedLines output, p l = false) →
      specMetric p e (strippedLines output) = none) := by
  constructor
  · rw [parse_ab_output, parse_ab_lines_spec (strippedLines output) {} hexcl hwf]
    simp
  · intro p e h
    unfold specMetric
    rw [List.filter_eq_nil_iff.mpr (fun l hl => by simp [h l hl])]
    rfl

set_option maxRecDepth 40000 in
unseal Rat.add Rat.mul Rat.inv Rat.sub in
/-- C5 witness: a concrete ab transcript; note the second Time-per-request
line (across all concurrent requests) does not carry the exact "(mean)"
marker and is therefore ignored, and every marker line parses at its claimed
token position. -/
theorem parse_ab_output_line_matching_witness :
    (∀ l ∈ strippedLines sampleAbReport, markerCount l ≤ 1) ∧
    (parse_ab_output sampleAbReport = .ok
      { requests_per_second :=
          specMetric isRpsLine (fun l => tokenFloat l 3) (strippedLines sampleAbReport)
        mean_response_time :=
          specMetric isMeanLine (fun l => tokenFloat l 3) (strippedLines sampleAbReport)
        failed_requests :=
          specMetric isFailedLine (fun l => tokenInt l 2) (strippedLines sampleAbReport)
        total_time :=
          specMetric isTotalTimeLine (fun l => tokenFloat l 4) (strippedLines sampleAbReport)
        transfer_rate :=
          specMetric isTransferLine (fun l => tokenFloat l 2) (strippedLines sampleAbReport) } ∧
    (∀ (p : String → Bool) (e : String → Option Rat),
      (∀ l ∈ strippedLines sampleAbReport, p l = false) →
      specMetric p e (strippedLines sampleAbReport) = none)) :=
  ⟨by decide, parse_ab_output_line_matching sampleAbReport (by decide) (by decide)⟩

end GshBench
